import Mathlib

/-!
Shallow embedding of `elasticsearch-query-helper` (src/src/index.ts).

JavaScript values are modelled by the inductive type `Js`: `undefined` is an
explicit value (`Js.undefined`), objects are ordered association lists, arrays are
lists.  Builders that may return `undefined` return `Js.undefined`.  Dynamic
property access that can throw a `TypeError` (reading a property of
`undefined`/`null`, iterating a non-array) is modelled in `Except String`.
Lazy `FluentIterable` pipelines are modelled by their fully-consumed result:
an `Except String (List Js)` —  an error anywhere in the walk surfaces as
`Except.error`, matching the exception thrown on consumption.
-/

namespace ESQ

/-- A JavaScript/JSON value. `undefined` is the explicit absence marker;
objects keep their fields as an ordered association list. -/
inductive Js where
  | undefined : Js
  | null : Js
  | bool (b : Bool) : Js
  | num (n : Int) : Js
  | str (s : String) : Js
  | arr (xs : List Js) : Js
  | obj (fields : List (String × Js)) : Js

/-- JavaScript truthiness: `undefined`, `null`, `false`, `0` and `""` are
falsy; arrays and objects are always truthy. -/
def Js.truthy : Js → Bool
  | .undefined => false
  | .null => false
  | .bool b => b
  | .num n => n != 0
  | .str s => s != ""
  | .arr _ => true
  | .obj _ => true

/-- Is this value the `undefined` marker? (the `x !== undefined` test). -/
def Js.isUndefined : Js → Bool
  | .undefined => true
  | _ => false

/-- JavaScript property access `v[key]`: throws a `TypeError` on
`undefined`/`null`, yields the field (or `undefined` when the key is missing)
on an object, and `undefined` on other primitives. -/
def getProp : Js → String → Except String Js
  | .undefined, _ => .error "TypeError"
  | .null, _ => .error "TypeError"
  | .obj fields, key => .ok ((fields.lookup key).getD .undefined)
  | _, _ => .ok .undefined

/-- Optional chaining `v?.[key]`: `undefined` instead of a `TypeError` when
the receiver is `undefined`/`null`. -/
def optChain (v : Js) (key : String) : Except String Js :=
  match v with
  | .undefined => .ok .undefined
  | .null => .ok .undefined
  | _ => getProp v key

/-- Iterating a value as an array (what `fluent`/`flatMap` do): anything but
an actual array throws. -/
def asArr : Js → Except String (List Js)
  | .arr xs => .ok xs
  | _ => .error "TypeError"

/-! ### Fragment builders (src/src/index.ts, current version, lines 392-756) -/

/-- `andOr` (line 392): keep the truthy items (`items.filter(identity)`);
zero left → `undefined`; one left → that very element; otherwise a
`bool` wrapper holding them under `field`. -/
def andOr (items : List Js) (field : String) : Js :=
  match items.filter Js.truthy with
  | [] => .undefined
  | [v] => v
  | values => .obj [("bool", .obj [(field, .arr values)])]

/-- `and` (line 413): `andOr(items, 'must')`. -/
def and (items : List Js) : Js :=
  andOr items "must"

/-- `or` (line 422): `andOr(items, 'should')`. -/
def or (items : List Js) : Js :=
  andOr items "should"

/-- `gte` (line 432): a one-boundary range fragment, or `undefined` for a
falsy value. -/
def gte (field : String) (value : Js) : Js :=
  if value.truthy then
    .obj [("range", .obj [(field, .obj [("gte", value)])])]
  else
    .undefined

/-- `lte` (line 450). -/
def lte (field : String) (value : Js) : Js :=
  if value.truthy then
    .obj [("range", .obj [(field, .obj [("lte", value)])])]
  else
    .undefined

/-- `lt` (line 468). -/
def lt (field : String) (value : Js) : Js :=
  if value.truthy then
    .obj [("range", .obj [(field, .obj [("lt", value)])])]
  else
    .undefined

/-- `between` (line 487): `undefined` when both boundaries are falsy;
otherwise a range fragment carrying BOTH `gte` and `lte` keys, an absent
boundary stored as the explicit `undefined` value. -/
def between (field : String) (fromVal toVal : Js) : Js :=
  if !fromVal.truthy && !toVal.truthy then
    .undefined
  else
    .obj [("range", .obj [(field, .obj [("gte", fromVal), ("lte", toVal)])])]

/-- `isIn` (line 511): `undefined` for an absent collection; drop the
entries that are `undefined` (`x !== undefined`); `undefined` if none are
left, else a `terms` fragment over the filtered collection. -/
def isIn (field : String) (values : Option (List Js)) : Js :=
  match values with
  | none => .undefined
  | some vs =>
    let definedValues := vs.filter (fun x => !x.isUndefined)
    if definedValues.length != 0 then
      .obj [("terms", .obj [(field, .arr definedValues)])]
    else
      .undefined

/-- `equals` (line 531): `isIn` over the single-element collection `[value]`. -/
def equals (field : String) (value : Js) : Js :=
  isIn field (some [value])

/-- `select` (line 540): wrap a field list under `includes`, `undefined`
when the list is absent. -/
def select (includes : Option (List String)) : Js :=
  match includes with
  | some l => .obj [("includes", .arr (l.map .str))]
  | none => .undefined

/-- `topHits` (line 593): a `tops.top_hits` fragment; a plain numeric size
yields only a `size` key, a `[from, size]` pair yields `from` and `size`. -/
def topHits (size : Int ⊕ (Int × Int)) (sort : Js)
    (fields : Option (List String) := none) : Js :=
  .obj [("tops", .obj [("top_hits", .obj (
    (match size with
     | .inl s => [("size", Js.num s)]
     | .inr p => [("from", Js.num p.1), ("size", Js.num p.2)]) ++
    [("sort", sort), ("_source", select fields)]))])]

/-- `lastHit` (line 619): `topHits(1, sort, fields)`. -/
def lastHit (sort : Js) (fields : Option (List String) := none) : Js :=
  topHits (Sum.inl 1) sort fields

/-- `where` (line 748; `where` is a reserved word in Lean, hence the name):
`{ query }` for a truthy query, the empty envelope `{}` otherwise. -/
def whereQuery (query : Js) : Js :=
  if query.truthy then
    .obj [("query", query)]
  else
    .obj []

/-! ### Result flattener (src/src/index.ts, lines 765-795) -/

/-- Consume a lazy `map` stage: apply `f` left to right, stopping at the
first thrown error. -/
def mapE (f : Js → Except String Js) : List Js → Except String (List Js)
  | [] => .ok []
  | x :: xs => do
    let y ← f x
    let rest ← mapE f xs
    return y :: rest

/-- Consume a lazy `flatMap` stage: concatenate the lists `f` produces,
left to right, stopping at the first thrown error. -/
def flatMapE (f : Js → Except String (List Js)) :
    List Js → Except String (List Js)
  | [] => .ok []
  | x :: xs => do
    let ys ← f x
    let rest ← flatMapE f xs
    return ys ++ rest

/-- `x.buckets` followed by iteration of the result as an array. -/
def getBuckets (v : Js) : Except String (List Js) := do
  let b ← getProp v "buckets"
  asArr b

/-- One step of the walk (line 776): `result.filter().flatMap((x) =>
x[name].buckets)` — discard falsy entries, then flat-map each survivor
through its sub-aggregation's bucket list. -/
def descendOne (name : String) (bs : List Js) : Except String (List Js) :=
  flatMapE (fun x => do
    let sub ← getProp x name
    getBuckets sub) (bs.filter Js.truthy)

/-- `flatTermsAggregations` (line 765): read `response.body?.aggregations`;
if falsy, the empty sequence; otherwise start from the first aggregation's
bucket list (`aggregations[firstAgg].buckets`, unchecked) and descend one
level per further name. The result is the consumed sequence, or the first
`TypeError` the walk throws. -/
def flatTermsAggregations (response : Js) (firstAgg : String)
    (others : List String) : Except String (List Js) := do
  let body ← getProp response "body"
  let aggregations ← optChain body "aggregations"
  if aggregations.truthy then
    let first ← getProp aggregations firstAgg
    let buckets ← getBuckets first
    others.foldlM (fun acc name => descendOne name acc) buckets
  else
    return []

/-- `flatTopHitsAggregation` (line 787): discard falsy entries, flat-map
each leaf bucket's `x[aggName].hits.hits`, and extract `_source` from each
envelope. Default aggregation name `tops`. -/
def flatTopHitsAggregation (response : List Js)
    (aggName : String := "tops") : Except String (List Js) := do
  let hits ← flatMapE (fun x => do
    let a ← getProp x aggName
    let h ← getProp a "hits"
    getProp h "hits" >>= asArr) (response.filter Js.truthy)
  mapE (fun x => getProp x "_source") hits

/-- A raw response whose body groups a single named aggregation over the
given bucket list — the shape `{ body: { aggregations: { name: { buckets } } } }`. -/
def mkResp (name : String) (buckets : List Js) : Js :=
  .obj [("body", .obj [("aggregations", .obj [(name, .obj [("buckets", .arr buckets)])])])]

/-! ### Helper lemmas -/

theorem ok_bind {α β : Type} (a : α) (f : α → Except String β) :
    (Except.ok a >>= f) = f a := rfl

theorem error_bind {α β : Type} (e : String) (f : α → Except String β) :
    ((Except.error e : Except String α) >>= f) = Except.error e := rfl

theorem getProp_singleton (key : String) (v : Js) :
    getProp (Js.obj [(key, v)]) key = Except.ok v := by
  simp [getProp]

/-- On a single-aggregation response built by `mkResp`, the walk reduces to
folding `descendOne` over the remaining names, started on the bucket list. -/
theorem flatTerms_mkResp (name : String) (buckets : List Js)
    (others : List String) :
    flatTermsAggregations (mkResp name buckets) name others =
      others.foldlM (fun acc n => descendOne n acc) buckets := by
  simp [flatTermsAggregations, mkResp, getProp, optChain, getBuckets, asArr,
    Js.truthy, ok_bind]

/-! ### Claim theorems -/

/-- C1: the raw response whose body is
`{ aggregations: { byCategory: { buckets: [ { key:'a', tops:{hits:{hits:[{_source:{id:1}}]}} }, { key:'b', tops:{hits:{hits:[{_source:{id:2}},{_source:{id:3}}]}} } ] } } }`,
walked by `flatTermsAggregations` with first name `byCategory` and no further
names, then unwrapped by `flatTopHitsAggregation` with the default
aggregation name `tops`, yields exactly `[{id:1},{id:2},{id:3}]` in
bucket-then-hit order. -/
theorem end_to_end_walk_unwrap_example :
    (flatTermsAggregations
      (Js.obj [("body", Js.obj [("aggregations", Js.obj [("byCategory",
        Js.obj [("buckets", Js.arr [
          Js.obj [("key", Js.str "a"),
            ("tops", Js.obj [("hits", Js.obj [("hits", Js.arr [
              Js.obj [("_source", Js.obj [("id", Js.num 1)])]])])])],
          Js.obj [("key", Js.str "b"),
            ("tops", Js.obj [("hits", Js.obj [("hits", Js.arr [
              Js.obj [("_source", Js.obj [("id", Js.num 2)])],
              Js.obj [("_source", Js.obj [("id", Js.num 3)])]])])])]])])])])])
      "byCategory" [] >>= fun bs => flatTopHitsAggregation bs)
    = Except.ok [Js.obj [("id", Js.num 1)], Js.obj [("id", Js.num 2)],
        Js.obj [("id", Js.num 3)]] := rfl

/-- C7: `where(undefined)` is the empty envelope `{}` (no constraint, not an
error), and `where(fragment)` for a present fragment (an object) is exactly
`{ query: fragment }`. -/
theorem where_envelope_cases (fields : List (String × Js)) :
    whereQuery Js.undefined = Js.obj [] ∧
    whereQuery (Js.obj fields) = Js.obj [("query", Js.obj fields)] :=
  ⟨rfl, rfl⟩

/-- C8: `equals(field, v)` returns exactly `isIn(field, [v])` for every
optional value `v`; in particular `equals(field, undefined)` is absence. -/
theorem equals_is_isIn_singleton (field : String) (v : Js) :
    equals field v = isIn field (some [v]) ∧
    equals field Js.undefined = Js.undefined :=
  ⟨rfl, rfl⟩

/-- C9: with a `[from, size]` pair, `topHits` puts `from` (items to skip)
and `size` under `tops.top_hits`; a plain numeric size yields only a `size`
key; and `lastHit(sort, fields)` is exactly `topHits(1, sort, fields)`. -/
theorem topHits_pair_and_lastHit (sort : Js) (fields : Option (List String))
    (f s n : Int) :
    topHits (Sum.inr (f, s)) sort fields =
      Js.obj [("tops", Js.obj [("top_hits", Js.obj [("from", Js.num f),
        ("size", Js.num s), ("sort", sort), ("_source", select fields)])])] ∧
    topHits (Sum.inl n) sort fields =
      Js.obj [("tops", Js.obj [("top_hits", Js.obj [("size", Js.num n),
        ("sort", sort), ("_source", select fields)])])] ∧
    lastHit sort fields = topHits (Sum.inl 1) sort fields :=
  ⟨rfl, rfl, rfl⟩

/-- C2: after discarding absent (falsy) entries, `and`/`or` return absence
when nothing remains, the sole surviving element itself when one remains
(the source returns `values[0]` directly, no copy — in this value-level
embedding, that element), and a `bool` wrapper whose `must` (for `and`) or
`should` (for `or`) list holds exactly the survivors in original order when
two or more remain. -/
theorem and_or_combinator_cases (items : List Js) :
    (items.filter Js.truthy = [] →
      ESQ.and items = Js.undefined ∧ ESQ.or items = Js.undefined) ∧
    (∀ v, items.filter Js.truthy = [v] →
      ESQ.and items = v ∧ ESQ.or items = v) ∧
    (2 ≤ (items.filter Js.truthy).length →
      ESQ.and items =
        Js.obj [("bool", Js.obj [("must", Js.arr (items.filter Js.truthy))])] ∧
      ESQ.or items =
        Js.obj [("bool", Js.obj [("should", Js.arr (items.filter Js.truthy))])]) := by
  refine ⟨?_, ?_, ?_⟩
  · intro h
    simp [ESQ.and, ESQ.or, andOr, h]
  · intro v h
    simp [ESQ.and, ESQ.or, andOr, h]
  · intro h
    rcases hv : items.filter Js.truthy with _ | ⟨a, _ | ⟨b, t⟩⟩ <;>
      rw [hv] at h
    · simp at h
    · simp at h
    · exact ⟨by simp [ESQ.and, andOr, hv], by simp [ESQ.or, andOr, hv]⟩

/-- C2 witness: concrete instances of all three branches. -/
theorem and_or_combinator_cases_witness :
    ESQ.and [Js.undefined] = Js.undefined ∧
    ESQ.or [Js.obj [("a", Js.num 1)], Js.undefined] = Js.obj [("a", Js.num 1)] ∧
    ESQ.and [Js.obj [("a", Js.num 1)], Js.obj [("b", Js.num 2)]] =
      Js.obj [("bool", Js.obj [("must",
        Js.arr [Js.obj [("a", Js.num 1)], Js.obj [("b", Js.num 2)]])])] :=
  ⟨((and_or_combinator_cases [Js.undefined]).1 rfl).1,
   ((and_or_combinator_cases [Js.obj [("a", Js.num 1)], Js.undefined]).2.1
      (Js.obj [("a", Js.num 1)]) rfl).2,
   ((and_or_combinator_cases
      [Js.obj [("a", Js.num 1)], Js.obj [("b", Js.num 2)]]).2.2
      (by decide)).1⟩

/-- C4: `isIn` over an empty list or an absent list is absence;
`isIn(field, [undefined])` is absence because entries equal to `undefined`
are filtered out before the emptiness check; and for a defined `v`,
`isIn(field, [v])` is a `terms` fragment over the filtered singleton. -/
theorem isIn_absence_and_singleton (field : String) (v : Js)
    (hv : v.isUndefined = false) :
    isIn field (some []) = Js.undefined ∧
    isIn field none = Js.undefined ∧
    isIn field (some [Js.undefined]) = Js.undefined ∧
    isIn field (some [v]) = Js.obj [("terms", Js.obj [(field, Js.arr [v])])] := by
  refine ⟨rfl, rfl, rfl, ?_⟩
  simp [isIn, hv]

/-- C4 witness: the defined value `1`. -/
theorem isIn_absence_and_singleton_witness :
    Js.isUndefined (Js.num 1) = false ∧
    isIn "f" (some [Js.num 1]) =
      Js.obj [("terms", Js.obj [("f", Js.arr [Js.num 1])])] :=
  ⟨rfl, (isIn_absence_and_singleton "f" (Js.num 1) rfl).2.2.2⟩

/-- C5: `between` is absence when both boundaries are absent; with exactly
one present (truthy) boundary it still returns a range fragment carrying
BOTH keys, the absent one set to the explicit `undefined` marker; with both
present, both boundaries are set. -/
theorem between_boundary_cases (field : String) (v v1 v2 : Js)
    (hv : v.truthy = true) (h1 : v1.truthy = true) (h2 : v2.truthy = true) :
    between field Js.undefined Js.undefined = Js.undefined ∧
    between field v Js.undefined =
      Js.obj [("range", Js.obj [(field,
        Js.obj [("gte", v), ("lte", Js.undefined)])])] ∧
    between field Js.undefined v =
      Js.obj [("range", Js.obj [(field,
        Js.obj [("gte", Js.undefined), ("lte", v)])])] ∧
    between field v1 v2 =
      Js.obj [("range", Js.obj [(field,
        Js.obj [("gte", v1), ("lte", v2)])])] := by
  refine ⟨rfl, ?_, ?_, ?_⟩ <;> simp [between, hv, h1, h2]

/-- C5 witness: boundaries `5`, `"a"` and `7`. -/
theorem between_boundary_cases_witness :
    Js.truthy (Js.num 5) = true ∧
    between "f" (Js.num 5) Js.undefined =
      Js.obj [("range", Js.obj [("f",
        Js.obj [("gte", Js.num 5), ("lte", Js.undefined)])])] ∧
    between "f" (Js.str "a") (Js.num 7) =
      Js.obj [("range", Js.obj [("f",
        Js.obj [("gte", Js.str "a"), ("lte", Js.num 7)])])] :=
  ⟨by decide,
   (between_boundary_cases "f" (Js.num 5) (Js.str "a") (Js.num 7)
      (by decide) (by decide) (by decide)).2.1,
   (between_boundary_cases "f" (Js.num 5) (Js.str "a") (Js.num 7)
      (by decide) (by decide) (by decide)).2.2.2⟩

/-- C6: `gte`/`lte`/`lt` return absence exactly when the value is falsy;
otherwise a range fragment keyed by the field with exactly one boundary key
(`gte`, `lte`, `lt` respectively) set to the value. -/
theorem gte_lte_lt_falsy_absence (field : String) (v : Js) :
    (v.truthy = false →
      gte field v = Js.undefined ∧ lte field v = Js.undefined ∧
      ESQ.lt field v = Js.undefined) ∧
    (v.truthy = true →
      gte field v = Js.obj [("range", Js.obj [(field, Js.obj [("gte", v)])])] ∧
      lte field v = Js.obj [("range", Js.obj [(field, Js.obj [("lte", v)])])] ∧
      ESQ.lt field v =
        Js.obj [("range", Js.obj [(field, Js.obj [("lt", v)])])]) := by
  constructor <;> intro h <;>
    refine ⟨?_, ?_, ?_⟩ <;> simp [gte, lte, ESQ.lt, h]

/-- C6 witness: the falsy value `0` and the truthy value `7`. -/
theorem gte_lte_lt_falsy_absence_witness :
    Js.truthy (Js.num 0) = false ∧ gte "f" (Js.num 0) = Js.undefined ∧
    Js.truthy (Js.num 7) = true ∧
    ESQ.lt "f" (Js.num 7) =
      Js.obj [("range", Js.obj [("f", Js.obj [("lt", Js.num 7)])])] :=
  ⟨by decide, ((gte_lte_lt_falsy_absence "f" (Js.num 0)).1 (by decide)).1,
   by decide, ((gte_lte_lt_falsy_absence "f" (Js.num 7)).2 (by decide)).2.2⟩

/-- C10: with a present aggregations section and zero subsequent names, the
walk returns the first aggregation's bucket entries unchanged — falsy
entries included, since the `filter` runs only inside the per-name descent
step; and that descent step is where falsy buckets are dropped: prepending
a falsy bucket to the first level does not change the result of a one-name
descent. -/
theorem first_level_buckets_unfiltered (aggName name2 : String)
    (bs : List Js) (b : Js) (hb : b.truthy = false) :
    flatTermsAggregations (mkResp aggName bs) aggName [] = Except.ok bs ∧
    flatTermsAggregations (mkResp aggName (b :: bs)) aggName [name2] =
      flatTermsAggregations (mkResp aggName bs) aggName [name2] := by
  constructor
  · rw [flatTerms_mkResp]
    rfl
  · rw [flatTerms_mkResp, flatTerms_mkResp]
    simp [List.foldlM, descendOne, List.filter_cons, hb]

/-- C10 witness: a falsy (`undefined`) bucket survives the zero-name walk
and is skipped by a one-name descent. -/
theorem first_level_buckets_unfiltered_witness :
    Js.truthy Js.undefined = false ∧
    flatTermsAggregations
      (mkResp "g" [Js.undefined, Js.obj [("sub", Js.obj [("buckets", Js.arr [])])]])
      "g" [] =
      Except.ok [Js.undefined, Js.obj [("sub", Js.obj [("buckets", Js.arr [])])]] ∧
    flatTermsAggregations
      (mkResp "g" (Js.undefined ::
        [Js.undefined, Js.obj [("sub", Js.obj [("buckets", Js.arr [])])]]))
      "g" ["sub"] =
      flatTermsAggregations
        (mkResp "g" [Js.undefined, Js.obj [("sub", Js.obj [("buckets", Js.arr [])])]])
        "g" ["sub"] :=
  ⟨rfl,
   (first_level_buckets_unfiltered "g" "sub"
      [Js.undefined, Js.obj [("sub", Js.obj [("buckets", Js.arr [])])]]
      Js.undefined rfl).1,
   (first_level_buckets_unfiltered "g" "sub"
      [Js.undefined, Js.obj [("sub", Js.obj [("buckets", Js.arr [])])]]
      Js.undefined rfl).2⟩

/-- C3: an entirely absent (falsy) aggregations section yields the empty
sequence, not an error; but with aggregations present, a first aggregation
name that is missing — or a subsequent path name missing from a bucket —
makes the walk fail with a propagated `TypeError` instead of yielding an
empty or partial sequence. -/
theorem flatTerms_error_policy :
    (∀ (body : Js) (firstAgg : String) (others : List String) (aggs : Js),
      optChain body "aggregations" = Except.ok aggs → aggs.truthy = false →
      flatTermsAggregations (Js.obj [("body", body)]) firstAgg others =
        Except.ok []) ∧
    (∀ (fields : List (String × Js)) (firstAgg : String)
      (others : List String),
      fields.lookup firstAgg = none →
      flatTermsAggregations
        (Js.obj [("body", Js.obj [("aggregations", Js.obj fields)])])
        firstAgg others = Except.error "TypeError") ∧
    (∀ (aggName name2 : String) (bfields : List (String × Js)),
      bfields.lookup name2 = none →
      flatTermsAggregations (mkResp aggName [Js.obj bfields]) aggName [name2] =
        Except.error "TypeError") := by
  refine ⟨?_, ?_, ?_⟩
  · intro body firstAgg others aggs h h2
    simp [flatTermsAggregations, getProp_singleton, ok_bind, h, h2]
    rfl
  · intro fields firstAgg others h
    simp [flatTermsAggregations, getProp_singleton, ok_bind, optChain,
      getProp, h, getBuckets, asArr, error_bind, Js.truthy]
  · intro aggName name2 bfields h
    rw [flatTerms_mkResp]
    simp [List.foldlM, descendOne, List.filter, Js.truthy, flatMapE,
      getProp, h, getBuckets, asArr, ok_bind, error_bind]

/-- C3 witness: an empty body (no aggregations), an empty aggregations
object (first name missing), and a bucket lacking the subsequent name. -/
theorem flatTerms_error_policy_witness :
    flatTermsAggregations (Js.obj [("body", Js.obj [])]) "a" [] =
      Except.ok [] ∧
    flatTermsAggregations
      (Js.obj [("body", Js.obj [("aggregations", Js.obj [])])]) "a" [] =
      Except.error "TypeError" ∧
    flatTermsAggregations (mkResp "g" [Js.obj [("key", Js.str "a")]])
      "g" ["sub"] = Except.error "TypeError" :=
  ⟨flatTerms_error_policy.1 (Js.obj []) "a" [] Js.undefined rfl rfl,
   flatTerms_error_policy.2.1 [] "a" [] rfl,
   flatTerms_error_policy.2.2 "g" "sub" [("key", Js.str "a")] rfl⟩

end ESQ
